import Mathlib

/-!
Verification development for the per-account chain orchestrator of the
hyperevo/py-evm block-lattice node.

The definitions below are a shallow embedding of the Python sources:

* `evm/chains/base.py` — `Chain` (fork-table resolution, queue-block staging,
  receivable discovery, block import, gas-limit validation);
* `evm/vm/forks/helios_testnet/transactions.py` —
  `HeliosTestnetReceiveTransaction.validate` and its `v_min` / `v_max`;
* `evm/db/consensus.py` — the (stubbed) head registry.

Hashes, addresses and 256-bit words are modelled as `Nat`; machine-level
overflow does not arise because all the embedded code paths only compare and
copy these values.  Python exceptions become the `Err` error type together
with `Except Err` results; attribute mutation becomes explicit state passing
on `ChainState`.  Components of the repository that are referenced by the
embedded files but whose own sources are not available (the VM classes, the
validation helper module, the chain database) are modelled from the
specification; each such definition carries a doc comment starting with
`Modelled from the spec:`.
-/

/-- The error kinds raised by the embedded code paths.  `ValidationError`,
`NotEnoughTimeBetweenBlocks`, `VMNotFound`, `HeaderNotFound`,
`TransactionNotFound` and `CanonicalHeadNotFound` are the exception classes of
`evm.exceptions`; `InvalidQueueBlockState` is the spec's name for the failure
of `validate_is_queue_block`; `TypeError` models the Python `TypeError` raised
when an `int` is compared against `None`. -/
inductive Err where
  | ValidationError
  | NotEnoughTimeBetweenBlocks
  | VMNotFound
  | HeaderNotFound
  | TransactionNotFound
  | CanonicalHeadNotFound
  | InvalidQueueBlockState
  | TypeError
  deriving DecidableEq, Repr

/-- `SECPK1_N`, the order of the secp256k1 curve (`evm/constants.py`). -/
def SECPK1_N : Nat :=
  115792089237316195423570985008687907852837564279074904382605163141518161494337

/-- Modelled from the spec: `MIN_TIME_BETWEEN_BLOCKS` from `evm/constants.py`
(not under `src/`): the configured minimum number of seconds between a block
and its parent; the spec only requires it to be a positive rate limit. -/
def MIN_TIME_BETWEEN_BLOCKS : Nat := 10

/-- Modelled from the spec: `GAS_LIMIT_ADJUSTMENT_FACTOR` from
`evm/constants.py` (not under `src/`): the fixed fraction of the parent gas
limit by which a child block's gas limit may move. -/
def GAS_LIMIT_ADJUSTMENT_FACTOR : Nat := 1024

/-- `2 ^ 256`, the exclusive upper bound checked by `validate_uint256`. -/
def UINT256_CEILING : Nat := 2 ^ 256

/-- A pending-receive key (`TransactionKey` of `evm/rlp/accounts.py`):
identifies one outstanding send transaction awaiting a receive. -/
structure TransactionKey where
  transaction_hash : Nat
  sender_block_hash : Nat
  deriving DecidableEq, Repr

/-- A send transaction (`HeliosTestnetTransaction`).  The `hash` field models
the transaction's keccak hash, an external crypto capability. -/
structure Transaction where
  nonce : Nat := 0
  gas_price : Nat := 0
  gas : Nat := 0
  to_address : Nat := 0  -- the source field is named `to`, a reserved word here
  value : Nat := 0
  v : Nat := 0
  r : Nat := 0
  s : Nat := 0
  hash : Nat := 0
  deriving DecidableEq, Repr

/-- A receive transaction (`HeliosTestnetReceiveTransaction`): the fields list
of `evm/vm/forks/helios_testnet/transactions.py`. -/
structure ReceiveTransaction where
  sender_block_hash : Nat
  transaction : Transaction
  v : Nat
  r : Nat
  s : Nat
  deriving DecidableEq, Repr

/-- A block header (`evm/rlp/headers.py`, restricted to the fields the
embedded code paths read).  `hash` models the header's keccak hash. -/
structure BlockHeader where
  block_number : Nat := 0
  parent_hash : Nat := 0
  timestamp : Nat := 0
  gas_limit : Nat := 0
  gas_used : Nat := 0
  hash : Nat := 0
  deriving DecidableEq, Repr

/-- A block: header plus the two transaction lists.  `is_queue_block` records
the runtime class of the Python object (`BaseQueueBlock` versus `BaseBlock`),
which is what `isinstance(block, ...get_queue_block_class())` inspects. -/
structure Block where
  header : BlockHeader
  transactions : List Transaction := []
  receive_transactions : List ReceiveTransaction := []
  is_queue_block : Bool := false
  deriving DecidableEq, Repr

/-- `BaseBlock.number`: the block's number is its header's number. -/
def Block.number (b : Block) : Nat := b.header.block_number

/-- `BaseBlock.hash`: the block's hash is its header's hash. -/
def Block.hash (b : Block) : Nat := b.header.hash

/-- Modelled from the spec: `BaseBlock.is_genesis` (class not under `src/`);
per the data model, chains start at block number 0 (genesis). -/
def Block.is_genesis (b : Block) : Bool := b.header.block_number == 0

/-- The mutable state of a `Chain` object together with its chain database:
`header` is `self.header` (the header of the chain's next slot), `queue_block`
is `self.queue_block`, `stored` is the set of persisted block headers of the
chain database (looked up by hash), and `canonical_head` is the persisted
canonical head checkpoint for the chain's address. -/
structure ChainState where
  header : BlockHeader
  queue_block : Option Block := none
  stored : List BlockHeader := []
  canonical_head : Option BlockHeader := none
  deriving DecidableEq, Repr

/-- The reversed linear scan inside `Chain.get_vm_class_for_block_timestamp`:
`for start_timestamp, vm_class in reversed(cls.vm_configuration): if
timestamp >= start_timestamp: return vm_class`, else `VMNotFound`.  The
argument list is already reversed; VM classes are identified by `Nat` tags. -/
def vmScan : List (Nat × Nat) → Nat → Except Err Nat
  | [], _ => .error .VMNotFound
  | (start_timestamp, vm_class) :: rest, timestamp =>
    if start_timestamp ≤ timestamp then .ok vm_class else vmScan rest timestamp

/-- `validate_uint256` (`evm/validation.py` is not under `src/`; the spec:
input validated as a non-negative integer fitting a 256-bit range, failing
with `ValidationError` otherwise). -/
def validate_uint256 (value : Nat) : Except Err Unit :=
  if value < UINT256_CEILING then .ok () else .error .ValidationError

/-- `Chain.get_vm_class_for_block_timestamp` (`evm/chains/base.py`): validates
the timestamp as a uint256, then scans `vm_configuration` from the latest
activation timestamp to the earliest and returns the first VM class whose
activation timestamp is ≤ the query; raises `VMNotFound` when no entry
qualifies.  The caller's wall clock (`time.time()` when no timestamp is
passed) is made an explicit argument at each call site. -/
def get_vm_class_for_block_timestamp (vm_configuration : List (Nat × Nat))
    (timestamp : Nat) : Except Err Nat :=
  match validate_uint256 timestamp with
  | .error e => .error e
  | .ok _ => vmScan vm_configuration.reverse timestamp

/-- `validate_gte` (`evm/validation.py`, not under `src/`; modelled on its
call sites in `src/`): raises `ValidationError` when `value < minimum`.  The
`v_min` property of a non-EIP-155 receive transaction is Python `None`
(`src/evm/vm/forks/helios_testnet/transactions.py` lines 169-172 fall through
without returning), and comparing an `int` with `None` raises `TypeError`, so
a `none` bound is the `TypeError` error. -/
def validate_gte (value : Nat) (minimum : Option Nat) : Except Err Unit :=
  match minimum with
  | none => .error .TypeError
  | some m => if value < m then .error .ValidationError else .ok ()

/-- `validate_lte` (`evm/validation.py`, not under `src/`): raises
`ValidationError` when `value > maximum`; a `None` bound is a `TypeError` as
in `validate_gte`. -/
def validate_lte (value : Nat) (maximum : Option Nat) : Except Err Unit :=
  match maximum with
  | none => .error .TypeError
  | some m => if m < value then .error .ValidationError else .ok ()

/-- `validate_lt_secpk1n` (`evm/validation.py`, not under `src/`): the value
must be ≤ `SECPK1_N - 1`, i.e. strictly below the curve order. -/
def validate_lt_secpk1n (value : Nat) : Except Err Unit :=
  validate_lte value (some (SECPK1_N - 1))

/-- `validate_lt_secpk1n2` (`evm/validation.py`, not under `src/`): the value
must be ≤ `SECPK1_N // 2 - 1`, i.e. in the lower half of the curve order. -/
def validate_lt_secpk1n2 (value : Nat) : Except Err Unit :=
  validate_lte value (some (SECPK1_N / 2 - 1))

/-- `is_eip_155_signed_transaction` (`evm/utils/transactions.py`, not under
`src/`; the spec: `v` encodes an optional chain id per an EIP-155-style
scheme): the transaction carries a chain id exactly when `v ≥ 35`. -/
def is_eip_155_signed (v : Nat) : Bool := 35 ≤ v

/-- `extract_chain_id` (`evm/utils/transactions.py`, not under `src/`): the
EIP-155 chain id encoded in `v`, namely `(v - 35) // 2`. -/
def extract_chain_id (v : Nat) : Nat := (v - 35) / 2

/-- `HeliosTestnetReceiveTransaction.chain_id`: `extract_chain_id(v)` when the
transaction is EIP-155 signed, Python `None` otherwise (the property body
falls through). -/
def ReceiveTransaction.chain_id (tx : ReceiveTransaction) : Option Nat :=
  if is_eip_155_signed tx.v then some (extract_chain_id tx.v) else none

/-- `HeliosTestnetReceiveTransaction.v_min`: `35 + 2 * chain_id` when EIP-155
signed, Python `None` otherwise. -/
def ReceiveTransaction.v_min (tx : ReceiveTransaction) : Option Nat :=
  if is_eip_155_signed tx.v then some (35 + 2 * extract_chain_id tx.v) else none

/-- `HeliosTestnetReceiveTransaction.v_max`: `36 + 2 * chain_id` when EIP-155
signed, Python `None` otherwise. -/
def ReceiveTransaction.v_max (tx : ReceiveTransaction) : Option Nat :=
  if is_eip_155_signed tx.v then some (36 + 2 * extract_chain_id tx.v) else none

/-- Modelled from the spec: `BaseReceiveTransaction.validate`
(`evm/rlp/transactions.py`, not under `src/`), the `super().validate()` call;
the spec states no additional conditions for it, so it succeeds. -/
def base_receive_transaction_validate (_tx : ReceiveTransaction) : Except Err Unit :=
  .ok ()

/-- Sequential statement execution with Python exception semantics for a
block of pure checks: run each check in order; the first raised exception
aborts the sequence and propagates. -/
def except_sequence : List (Except Err Unit) -> Except Err Unit
  | [] => .ok ()
  | x :: rest =>
    match x with
    | .error e => .error e
    | .ok _ => except_sequence rest

/-- `HeliosTestnetReceiveTransaction.validate`
(`src/evm/vm/forks/helios_testnet/transactions.py` lines 144-159), with the
checks sequenced exactly as in the source: uint256 bounds on `v`, `r`, `s`;
`r`, `s` below the curve order and ≥ 1; `v` within `[v_min, v_max]`;
`super().validate()`; finally `s` in the lower half of the curve order. -/
def ReceiveTransaction.validate (tx : ReceiveTransaction) : Except Err Unit :=
  except_sequence
    [validate_uint256 tx.v,
     validate_uint256 tx.r,
     validate_uint256 tx.s,
     validate_lt_secpk1n tx.r,
     validate_gte tx.r (some 1),
     validate_lt_secpk1n tx.s,
     validate_gte tx.s (some 1),
     validate_gte tx.v tx.v_min,
     validate_lte tx.v tx.v_max,
     base_receive_transaction_validate tx,
     validate_lt_secpk1n2 tx.s]

/-- Modelled from the spec: `ChainDB.get_block_header_by_hash`
(`evm/db/chain.py`, not under `src/`): looks the header up by hash in the
chain storage; the absence failure is `HeaderNotFound`, the exception class
that `Chain.get_chain_at_block_parent` (in `src/`) catches around exactly
this lookup. -/
def find_stored_header (stored : List BlockHeader) (block_hash : Nat) :
    Option BlockHeader :=
  stored.find? (fun h => h.hash == block_hash)

/-- `validate_word` (`evm/validation.py`, not under `src/`): a word is 32
bytes; on the `Nat` model, a value below `2 ^ 256`. -/
def validate_word (value : Nat) : Except Err Unit :=
  if value < UINT256_CEILING then .ok () else .error .ValidationError

/-- `Chain.get_block_header_by_hash` (`evm/chains/base.py`): validates the
hash as a word, then defers to the chain database lookup. -/
def get_block_header_by_hash (stored : List BlockHeader) (block_hash : Nat) :
    Except Err BlockHeader :=
  match validate_word block_hash with
  | .error e => .error e
  | .ok _ =>
    match find_stored_header stored block_hash with
    | some header => .ok header
    | none => .error .HeaderNotFound

/-- Modelled from the spec: `compute_gas_limit_bounds`
(`evm/utils/headers.py`, not under `src/`): the elastic bound window around
the parent's gas limit — a fixed-fraction band of width
`parent.gas_limit / GAS_LIMIT_ADJUSTMENT_FACTOR` on either side. -/
def compute_gas_limit_bounds (parent : BlockHeader) : Nat × Nat :=
  let boundary_range := parent.gas_limit / GAS_LIMIT_ADJUSTMENT_FACTOR
  (parent.gas_limit - boundary_range, parent.gas_limit + boundary_range)

/-- `Chain.validate_gaslimit` (`evm/chains/base.py`): fetches the parent
header by `parent_hash` (any lookup failure propagates unchanged), computes
the elastic bounds, and raises `ValidationError` when the header's gas limit
is strictly below the low bound or strictly above the high bound. -/
def validate_gaslimit (stored : List BlockHeader) (header : BlockHeader) :
    Except Err Unit :=
  match get_block_header_by_hash stored header.parent_hash with
  | .error e => .error e
  | .ok parent_header =>
    let bounds := compute_gas_limit_bounds parent_header
    if header.gas_limit < bounds.1 then .error .ValidationError
    else if bounds.2 < header.gas_limit then .error .ValidationError
    else .ok ()

/-- `Chain.validate_block` (`evm/chains/base.py`): chain-level validation is
exactly `validate_gaslimit` on the block's header. -/
def validate_block (st : ChainState) (block : Block) : Except Err Unit :=
  validate_gaslimit st.stored block.header

/-- Modelled from the spec: the VM class's `create_header_from_parent`
(`evm/vm/forks/helios_testnet/headers.py`, not under `src/`): constructs the
child header of `parent` — number one greater, parent hash the parent's hash,
a timestamp no earlier than both the wall clock and the parent's successor
second, the parent's gas limit carried over, and blank executor-filled
fields.  The construction is the same for every ruleset tag. -/
def vm_create_header_from_parent (now : Nat) (parent : BlockHeader) :
    BlockHeader :=
  { block_number := parent.block_number + 1
    parent_hash := parent.hash
    timestamp := max now (parent.timestamp + 1)
    gas_limit := parent.gas_limit
    gas_used := 0
    hash := 0 }

/-- `Chain.create_header_from_parent` (`evm/chains/base.py` lines 394-399):
`return self.get_vm_class_for_block_timestamp().create_header_from_parent(
parent_header, **header_params)`.  The VM class is resolved with NO timestamp
argument, so the lookup uses the wall clock `now`, not the parent's
timestamp.  The result records the ruleset tag the construction was delegated
to alongside the constructed header. -/
def chain_create_header_from_parent (vm_configuration : List (Nat × Nat))
    (now : Nat) (parent_header : BlockHeader) :
    Except Err (Nat × BlockHeader) :=
  match get_vm_class_for_block_timestamp vm_configuration now with
  | .error e => .error e
  | .ok vm_class => .ok (vm_class, vm_create_header_from_parent now parent_header)

/-- Modelled from the spec: `VM.block` for a queue-block chain tip
(`evm/vm/base.py`, not under `src/`): `Chain.get_block` returns the VM's
fresh staging block built on the chain's current `self.header` — an empty
mutable queue block. -/
def get_block (st : ChainState) : Block :=
  { header := st.header
    transactions := []
    receive_transactions := []
    is_queue_block := true }

/-- Modelled from the spec: `BaseQueueBlock.contains_transaction`
(`evm/rlp/blocks.py`, not under `src/`; the spec: send transactions are added
only if not already present, by hash, in the queue block's send list). -/
def Block.contains_transaction (b : Block) (tx : Transaction) : Bool :=
  b.transactions.any (fun t => t.hash == tx.hash)

/-- Modelled from the spec: `BaseQueueBlock.contains_receive_transaction`,
deduplication of receive transactions by their own identity. -/
def Block.contains_receive_transaction (b : Block) (tx : ReceiveTransaction) :
    Bool :=
  b.receive_transactions.any (fun t => t == tx)

/-- Modelled from the spec: `BaseQueueBlock.add_transaction`: appends the
send transaction to the queue block's send list. -/
def Block.add_transaction (b : Block) (tx : Transaction) : Block :=
  { b with transactions := b.transactions ++ [tx] }

/-- Modelled from the spec: `BaseQueueBlock.add_receive_transaction`: appends
the receive transaction to the queue block's receive list. -/
def Block.add_receive_transaction (b : Block) (tx : ReceiveTransaction) :
    Block :=
  { b with receive_transactions := b.receive_transactions ++ [tx] }

/-- The runtime dispatch of `Chain.add_transaction_to_queue_block` between
`BaseTransaction` and receive transactions, as a sum type. -/
inductive ChainTransaction where
  | send (tx : Transaction)
  | receive (tx : ReceiveTransaction)
  deriving DecidableEq, Repr

/-- Modelled from the spec: `validate_is_queue_block` (`evm/validation.py`,
not under `src/`): rejects a block that is not a mutable staging block. -/
def validate_is_queue_block (b : Block) : Except Err Unit :=
  if b.is_queue_block then .ok () else .error .InvalidQueueBlockState

/-- The queue block `Chain.add_transaction_to_queue_block` operates on: the
existing `self.queue_block`, or — `if self.queue_block is None` — the fresh
staging block recreated from the current tip by `self.get_block()`. -/
def effective_queue_block (st : ChainState) : Block :=
  match st.queue_block with
  | none => get_block st
  | some q => q

/-- `Chain.add_transaction_to_queue_block` (`evm/chains/base.py` lines
476-492): recreate the queue block from the current tip when absent, require
it to be a queue block, then dispatch on the transaction kind, adding only
when not already contained (a duplicate is logged and silently ignored). -/
def add_transaction_to_queue_block (st : ChainState) (tx : ChainTransaction) :
    Except Err ChainState :=
  let qb := effective_queue_block st
  match validate_is_queue_block qb with
  | .error e => .error e
  | .ok _ =>
    match tx with
    | .send t =>
      if qb.contains_transaction t then .ok { st with queue_block := some qb }
      else .ok { st with queue_block := some (qb.add_transaction t) }
    | .receive t =>
      if qb.contains_receive_transaction t then
        .ok { st with queue_block := some qb }
      else .ok { st with queue_block := some (qb.add_receive_transaction t) }

/-- The number of copies of the send transaction `tx` (identified by hash, as
the queue block deduplicates) in the state's queue block's send list. -/
def send_tx_count (st : ChainState) (tx : Transaction) : Nat :=
  match st.queue_block with
  | none => 0
  | some qb => (qb.transactions.filter (fun t => t.hash == tx.hash)).length

/-- Modelled from the spec: resolving one pending key through
`Chain.get_canonical_transaction`: the storage's reverse transaction index is
a map from transaction hash to the stored transaction; a missing entry is
`TransactionNotFound`, and (per the source's final check) a stored
transaction whose hash differs from the requested one is also
`TransactionNotFound`. -/
def get_canonical_transaction (canonical : Nat → Option Transaction)
    (transaction_hash : Nat) : Except Err Transaction :=
  match canonical transaction_hash with
  | none => .error .TransactionNotFound
  | some tx =>
    if tx.hash == transaction_hash then .ok tx else .error .TransactionNotFound

/-- The resolution loop of `Chain.get_receivable_transactions`: resolve each
pending key's send transaction in order. -/
def resolve_receivable_keys (canonical : Nat → Option Transaction) :
    List TransactionKey → Except Err (List Transaction)
  | [] => .ok []
  | k :: rest =>
    match get_canonical_transaction canonical k.transaction_hash with
    | .error e => .error e
    | .ok tx =>
      match resolve_receivable_keys canonical rest with
      | .error e => .error e
      | .ok txs => .ok (tx :: txs)

/-- One component of the Python pair returned by
`Chain.get_receivable_transactions`: either the literal `False` or a list. -/
inductive PyListOrFalse (α : Type) where
  | falseVal
  | listVal (l : List α)
  deriving DecidableEq, Repr

/-- `Chain.get_receivable_transactions` (`evm/chains/base.py` lines 576-585):
queries the receivable index for the address's pending keys; when there are
none it returns the sentinel pair `(False, False)`; otherwise it resolves
each key's send transaction via the canonical-transaction lookup and returns
the pair of the resolved transactions and the keys, in matching order.  The
account database's receivable index (`listPending` of the spec) is the
explicit `receivable` argument. -/
def get_receivable_transactions (receivable : Nat → List TransactionKey)
    (canonical : Nat → Option Transaction) (address : Nat) :
    Except Err (PyListOrFalse Transaction × PyListOrFalse TransactionKey) :=
  let tx_keys := receivable address
  if tx_keys.length = 0 then .ok (.falseVal, .falseVal)
  else
    match resolve_receivable_keys canonical tx_keys with
    | .error e => .error e
    | .ok transactions => .ok (.listVal transactions, .listVal tx_keys)

/-- `Chain.get_canonical_head` / `ChainDB.get_canonical_head`: the persisted
canonical head checkpoint, `CanonicalHeadNotFound` when unset. -/
def get_canonical_head (st : ChainState) : Except Err BlockHeader :=
  match st.canonical_head with
  | none => .error .CanonicalHeadNotFound
  | some head => .ok head

/-- Modelled from the spec: `VM.check_time_since_parent_block`
(`evm/vm/base.py`, not under `src/`): the minimum inter-block interval,
measured between header timestamps (spec §8: two blocks less than the
minimum interval apart, by header timestamp, fail the second).  A block whose
parent is not stored has nothing to be throttled against. -/
def check_time_since_parent_block (st : ChainState) (block : Block) : Bool :=
  match find_stored_header st.stored block.header.parent_hash with
  | none => true
  | some parent =>
    decide (parent.timestamp + MIN_TIME_BETWEEN_BLOCKS ≤ block.header.timestamp)

/-- Modelled from the spec: `ensure_imported_block_unchanged`
(`evm/utils/rlp.py`, not under `src/`): the executor's output must agree with
the submitted block on every field except those the executor is explicitly
allowed to fill in (gas used and the recomputed hash); a mismatch is a
`ValidationError`. -/
def ensure_imported_block_unchanged (imported_block block : Block) :
    Except Err Unit :=
  if imported_block.header.block_number = block.header.block_number
      ∧ imported_block.header.parent_hash = block.header.parent_hash
      ∧ imported_block.header.timestamp = block.header.timestamp
      ∧ imported_block.header.gas_limit = block.header.gas_limit
      ∧ imported_block.transactions = block.transactions
      ∧ imported_block.receive_transactions = block.receive_transactions
  then .ok () else .error .ValidationError

/-- The guard at the top of `Chain.import_block` (`evm/chains/base.py` lines
650-652): for a non-genesis block, resolve the current VM (`self.get_vm()`,
which looks the chain's own `self.header.timestamp` up in the fork table) and
require `check_time_since_parent_block`, failing with
`NotEnoughTimeBetweenBlocks`. -/
def import_block_time_check (vm_configuration : List (Nat × Nat))
    (st : ChainState) (block : Block) : Except Err Unit :=
  if block.is_genesis then .ok ()
  else
    match get_vm_class_for_block_timestamp vm_configuration st.header.timestamp with
    | .error e => .error e
    | .ok _ =>
      if check_time_since_parent_block st block then .ok ()
      else .error .NotEnoughTimeBetweenBlocks

/-- The tail of `Chain.import_block` (`evm/chains/base.py` lines 675-683):
persist the imported block (commit its header to chain storage and advance
the canonical head checkpoint), recompute `self.header` as the child of the
new canonical head via `create_header_from_parent`, clear the queue block,
and return the imported block.  A failure while recomputing the header
surfaces after the block was already persisted, exactly as an exception
between the source's persist and header assignment would. -/
def import_block_persist (vm_configuration : List (Nat × Nat)) (now : Nat)
    (st : ChainState) (imported_block : Block) :
    Except Err Block × ChainState :=
  let st1 : ChainState :=
    { st with
      stored := imported_block.header :: st.stored
      canonical_head := some imported_block.header }
  match get_canonical_head st1 with
  | .error e => (.error e, st1)
  | .ok head =>
    match chain_create_header_from_parent vm_configuration now head with
    | .error e => (.error e, st1)
    | .ok result =>
      (.ok imported_block,
        { st1 with header := result.2, queue_block := none })

/-- `Chain.import_block` (`evm/chains/base.py` lines 646-683), with the
statements in source order: the minimum-time guard; the block-number check
against `self.header.block_number` (`ValidationError` on mismatch); VM
resolution for the block's header timestamp and delegation to the executor
(`self.get_vm(block.header).import_block(block)`, the external Executor made
an explicit argument); the queue-block `isinstance` check (which resolves
`self.get_vm()` on the chain's own header first) that disables validation for
queue-block-class blocks; when validation remains enabled,
`ensure_imported_block_unchanged` then `validate_block`; finally persistence.
The returned state is the chain state at the moment the call returns or
raises. -/
def import_block (vm_configuration : List (Nat × Nat)) (now : Nat)
    (executor : Block → Except Err Block) (st : ChainState) (block : Block)
    (perform_validation : Bool := true) : Except Err Block × ChainState :=
  match import_block_time_check vm_configuration st block with
  | .error e => (.error e, st)
  | .ok _ =>
    if block.number ≠ st.header.block_number then (.error .ValidationError, st)
    else
      match get_vm_class_for_block_timestamp vm_configuration block.header.timestamp with
      | .error e => (.error e, st)
      | .ok _ =>
        match executor block with
        | .error e => (.error e, st)
        | .ok imported_block =>
          match get_vm_class_for_block_timestamp vm_configuration st.header.timestamp with
          | .error e => (.error e, st)
          | .ok _ =>
            -- `perform_validation = False` for queue-block-class blocks
            if perform_validation && !block.is_queue_block then
              match ensure_imported_block_unchanged imported_block block with
              | .error e => (.error e, st)
              | .ok _ =>
                match validate_block st imported_block with
                | .error e => (.error e, st)
                | .ok _ => import_block_persist vm_configuration now st imported_block
            else import_block_persist vm_configuration now st imported_block

/-- Decidable equality of `Except` results, so that concrete runs of the
embedded operations can be checked by `decide`. -/
instance {ε α : Type} [DecidableEq ε] [DecidableEq α] :
    DecidableEq (Except ε α) := fun x y =>
  match x, y with
  | .ok a, .ok b =>
    if h : a = b then .isTrue (by rw [h]) else .isFalse (by simp [h])
  | .error a, .error b =>
    if h : a = b then .isTrue (by rw [h]) else .isFalse (by simp [h])
  | .ok _, .error _ => .isFalse (by simp)
  | .error _, .ok _ => .isFalse (by simp)

/-- The reversed scan yields `VMNotFound` exactly when no entry of the
(already reversed) table qualifies. -/
theorem vmScan_eq_error_iff (l : List (Nat × Nat)) (t : Nat) :
    vmScan l t = Except.error Err.VMNotFound ↔ ∀ e ∈ l, t < e.1 := by
  induction l with
  | nil => simp [vmScan]
  | cons x rest ih =>
    obtain ⟨s, v⟩ := x
    by_cases h : s ≤ t
    · simp only [vmScan, if_pos h]
      constructor
      · intro hc
        exact absurd hc (by simp)
      · intro hall
        exact absurd (hall (s, v) (List.mem_cons_self _ _)) (by omega)
    · simp only [vmScan, if_neg h, ih, List.mem_cons]
      constructor
      · intro hall e he
        rcases he with rfl | he
        · omega
        · exact hall e he
      · intro hall e he
        exact hall e (Or.inr he)

/-- On a strictly descending (already reversed) table, the scan returns the
entry with the greatest activation timestamp that is ≤ the query. -/
theorem vmScan_eq_greatest (l : List (Nat × Nat)) (t : Nat) (e : Nat × Nat)
    (hdesc : l.Pairwise (fun a b => b.1 < a.1)) (he : e ∈ l) (hle : e.1 ≤ t)
    (hmax : ∀ f ∈ l, f.1 ≤ t → f.1 ≤ e.1) :
    vmScan l t = Except.ok e.2 := by
  induction l with
  | nil => cases he
  | cons x rest ih =>
    obtain ⟨s, v⟩ := x
    rw [List.pairwise_cons] at hdesc
    by_cases h : s ≤ t
    · have hsx : s ≤ e.1 := hmax (s, v) (List.mem_cons_self _ _) h
      rcases List.mem_cons.mp he with rfl | hrest
      · simp [vmScan, h]
      · have := hdesc.1 e hrest
        omega
    · rcases List.mem_cons.mp he with rfl | hrest
      · omega
      · simp only [vmScan, if_neg h]
        exact ih hdesc.2 hrest (fun f hf hfle => hmax f (List.mem_cons_of_mem _ hf) hfle)

/-- C3: for every fork table that is strictly ordered by activation timestamp
(as `validate_vm_configuration` enforces at construction) and every timestamp
`t` that is a valid 256-bit integer, `get_vm_class_for_block_timestamp`
fails with `VMNotFound` exactly when every entry's activation timestamp
exceeds `t` (in particular when the table is empty), and otherwise returns
the ruleset of the entry with the greatest activation timestamp ≤ `t`. -/
theorem get_vm_class_resolves_greatest_activation
    (vm_configuration : List (Nat × Nat)) (t : Nat)
    (hsorted : vm_configuration.Pairwise (fun a b => a.1 < b.1))
    (ht : t < UINT256_CEILING) :
    (get_vm_class_for_block_timestamp vm_configuration t
        = Except.error Err.VMNotFound ↔ ∀ e ∈ vm_configuration, t < e.1)
    ∧ ∀ e ∈ vm_configuration, e.1 ≤ t →
        (∀ f ∈ vm_configuration, f.1 ≤ t → f.1 ≤ e.1) →
        get_vm_class_for_block_timestamp vm_configuration t = Except.ok e.2 := by
  have hval : validate_uint256 t = Except.ok () := by
    simp [validate_uint256, ht]
  constructor
  · rw [get_vm_class_for_block_timestamp, hval, vmScan_eq_error_iff]
    simp [List.mem_reverse]
  · intro e he hle hmax
    rw [get_vm_class_for_block_timestamp, hval]
    refine vmScan_eq_greatest _ t e ?_ (List.mem_reverse.mpr he) hle ?_
    · rw [List.pairwise_reverse]
      exact hsorted
    · intro f hf hfle
      exact hmax f (List.mem_reverse.mp hf) hfle

/-- Witness for C3 at the concrete two-entry fork table `[(0, 7), (100, 9)]`:
a query inside the second fork resolves to ruleset 9, a query inside the
first resolves to ruleset 7, and a query below every activation fails with
`VMNotFound` on the table `[(100, 9)]`. -/
theorem get_vm_class_resolves_greatest_activation_witness :
    get_vm_class_for_block_timestamp [(0, 7), (100, 9)] 150 = Except.ok 9
    ∧ get_vm_class_for_block_timestamp [(0, 7), (100, 9)] 50 = Except.ok 7
    ∧ get_vm_class_for_block_timestamp [(100, 9)] 50
        = Except.error Err.VMNotFound := by
  refine ⟨?_, ?_, ?_⟩
  · exact (get_vm_class_resolves_greatest_activation [(0, 7), (100, 9)] 150
      (by decide) (by decide)).2 (100, 9) (by decide) (by decide) (by decide)
  · exact (get_vm_class_resolves_greatest_activation [(0, 7), (100, 9)] 50
      (by decide) (by decide)).2 (0, 7) (by decide) (by decide) (by decide)
  · exact ((get_vm_class_resolves_greatest_activation [(100, 9)] 50
      (by decide) (by decide)).1).mpr (by decide)

/-- `validate_gaslimit` when the parent lookup succeeds and the computed
bounds are `(low, high)`: the source's two comparisons. -/
theorem validate_gaslimit_of_found (stored : List BlockHeader)
    (header parent : BlockHeader) (low high : Nat)
    (hp : get_block_header_by_hash stored header.parent_hash
      = Except.ok parent)
    (hb : compute_gas_limit_bounds parent = (low, high)) :
    validate_gaslimit stored header =
      if header.gas_limit < low then Except.error Err.ValidationError
      else if high < header.gas_limit then Except.error Err.ValidationError
      else Except.ok () := by
  simp only [validate_gaslimit, hp, hb]

/-- C6: for every header whose parent header is found, `validate_gaslimit`
succeeds exactly when the gas limit lies inside the elastic window computed
from the parent, fails with `ValidationError` exactly when it lies strictly
below the low bound or strictly above the high bound, and accepts a header
whose gas limit equals either bound. -/
theorem validate_gaslimit_window (stored : List BlockHeader)
    (header parent : BlockHeader) (low high : Nat)
    (hp : get_block_header_by_hash stored header.parent_hash
      = Except.ok parent)
    (hb : compute_gas_limit_bounds parent = (low, high)) :
    (validate_gaslimit stored header = Except.ok ()
      ↔ low ≤ header.gas_limit ∧ header.gas_limit ≤ high)
    ∧ (header.gas_limit < low ∨ high < header.gas_limit →
        validate_gaslimit stored header = Except.error Err.ValidationError)
    ∧ (header.gas_limit = low → validate_gaslimit stored header = Except.ok ())
    ∧ (header.gas_limit = high →
        validate_gaslimit stored header = Except.ok ()) := by
  have hle : low ≤ high := by
    simp only [compute_gas_limit_bounds, GAS_LIMIT_ADJUSTMENT_FACTOR,
      Prod.mk.injEq] at hb
    omega
  rw [validate_gaslimit_of_found stored header parent low high hp hb]
  refine ⟨?_, ?_, ?_, ?_⟩
  · split_ifs with h1 h2
    · simp
      omega
    · simp
      omega
    · simp
      omega
  · intro h
    split_ifs with h1 h2
    · rfl
    · rfl
    · omega
  · intro h
    split_ifs with h1 h2
    · omega
    · omega
    · rfl
  · intro h
    split_ifs with h1 h2
    · omega
    · omega
    · rfl

/-- Witness for C6: with a stored parent of gas limit 2048 (window
`[2046, 2050]`), a header at the upper bound 2050 and one at the lower bound
2046 are accepted, and one at 2051 is rejected with `ValidationError`. -/
theorem validate_gaslimit_window_witness :
    validate_gaslimit [{ hash := 9, gas_limit := 2048 }]
      { parent_hash := 9, gas_limit := 2050 } = Except.ok ()
    ∧ validate_gaslimit [{ hash := 9, gas_limit := 2048 }]
      { parent_hash := 9, gas_limit := 2046 } = Except.ok ()
    ∧ validate_gaslimit [{ hash := 9, gas_limit := 2048 }]
      { parent_hash := 9, gas_limit := 2051 } = Except.error Err.ValidationError := by
  refine ⟨?_, ?_, ?_⟩
  · exact (validate_gaslimit_window [{ hash := 9, gas_limit := 2048 }]
      { parent_hash := 9, gas_limit := 2050 } { hash := 9, gas_limit := 2048 }
      2046 2050 (by rfl) (by rfl)).2.2.2 (by decide)
  · exact (validate_gaslimit_window [{ hash := 9, gas_limit := 2048 }]
      { parent_hash := 9, gas_limit := 2046 } { hash := 9, gas_limit := 2048 }
      2046 2050 (by rfl) (by rfl)).2.2.1 (by decide)
  · exact (validate_gaslimit_window [{ hash := 9, gas_limit := 2048 }]
      { parent_hash := 9, gas_limit := 2051 } { hash := 9, gas_limit := 2048 }
      2046 2050 (by rfl) (by rfl)).2.1 (by decide)

/-- C7 (counterexample): on an empty header store, `validate_gaslimit` of a
header with an unknown parent hash fails with `HeaderNotFound` — the lookup's
exception propagates unchanged — and `HeaderNotFound` is not
`ValidationError`, so the claim that the failure is a
`ValidationError("parent not found")` is false. -/
theorem validate_gaslimit_missing_parent_counterexample :
    validate_gaslimit [] { parent_hash := 1, gas_limit := 5 }
      = Except.error Err.HeaderNotFound
    ∧ Err.HeaderNotFound ≠ Err.ValidationError := by
  exact ⟨rfl, by decide⟩

/-- C7 (amended): for every header whose `parent_hash` is a well-formed word
that refers to no stored header, `validate_gaslimit` fails with
`HeaderNotFound` — the chain-database lookup's exception, which
`validate_gaslimit` does not convert to a `ValidationError` (unlike
`get_chain_at_block_parent`, which wraps the same lookup). -/
theorem validate_gaslimit_missing_parent (stored : List BlockHeader)
    (header : BlockHeader) (hw : header.parent_hash < UINT256_CEILING)
    (habs : find_stored_header stored header.parent_hash = none) :
    validate_gaslimit stored header = Except.error Err.HeaderNotFound := by
  rw [validate_gaslimit, get_block_header_by_hash]
  rw [validate_word, if_pos hw, habs]

/-- Witness for the amended C7 at a concrete empty store. -/
theorem validate_gaslimit_missing_parent_witness :
    validate_gaslimit [{ hash := 3 }] { parent_hash := 4, gas_limit := 70 }
      = Except.error Err.HeaderNotFound :=
  validate_gaslimit_missing_parent [{ hash := 3 }]
    { parent_hash := 4, gas_limit := 70 } (by decide) (by decide)

/-- C4: adding a send transaction that is not yet in the (valid) queue block
succeeds, leaves exactly one copy of it in the queue block's send-transaction
list, and a repeated add is a silently-ignored no-op: it raises no error and
returns the state unchanged, so any number of further adds still leaves
exactly one copy. -/
theorem add_transaction_to_queue_block_idempotent (st st1 : ChainState)
    (tx : Transaction)
    (hq : (effective_queue_block st).is_queue_block = true)
    (hnew : (effective_queue_block st).contains_transaction tx = false)
    (h1 : add_transaction_to_queue_block st (ChainTransaction.send tx)
      = Except.ok st1) :
    send_tx_count st1 tx = 1
    ∧ add_transaction_to_queue_block st1 (ChainTransaction.send tx)
        = Except.ok st1 := by
  have hq' : validate_is_queue_block (effective_queue_block st)
      = Except.ok () := by
    rw [validate_is_queue_block, hq]
    rfl
  rw [add_transaction_to_queue_block] at h1
  simp only [hq', hnew, Bool.false_eq_true, if_false, Except.ok.injEq] at h1
  subst h1
  have hfil : (effective_queue_block st).transactions.filter
      (fun t => t.hash == tx.hash) = [] := by
    rw [List.filter_eq_nil_iff]
    intro a ha
    rw [Block.contains_transaction] at hnew
    have := List.any_eq_false.mp hnew a ha
    simpa using this
  constructor
  · simp only [send_tx_count, Block.add_transaction, List.filter_append, hfil]
    simp
  · rw [add_transaction_to_queue_block]
    have heq : effective_queue_block
        { st with queue_block := some ((effective_queue_block st).add_transaction tx) }
        = (effective_queue_block st).add_transaction tx := rfl
    rw [heq]
    have hq2 : validate_is_queue_block
        ((effective_queue_block st).add_transaction tx) = Except.ok () := by
      rw [validate_is_queue_block, Block.add_transaction]
      simp only [hq]
      rfl
    rw [hq2]
    have hcontains : ((effective_queue_block st).add_transaction tx).contains_transaction tx
        = true := by
      simp [Block.contains_transaction, Block.add_transaction]
    simp only [hcontains, if_true]

/-- Witness for C4: on an empty chain state, adding the send transaction of
hash 3 once yields a queue block holding exactly one copy, and the second add
returns the same state without an error. -/
theorem add_transaction_to_queue_block_idempotent_witness :
    send_tx_count
      { header := {},
        queue_block := some
          { header := {}, transactions := [{ hash := 3 }],
            receive_transactions := [], is_queue_block := true } }
      { hash := 3 } = 1
    ∧ add_transaction_to_queue_block
        { header := {},
          queue_block := some
            { header := {}, transactions := [{ hash := 3 }],
              receive_transactions := [], is_queue_block := true } }
        (ChainTransaction.send { hash := 3 })
        = Except.ok
          { header := {},
            queue_block := some
              { header := {}, transactions := [{ hash := 3 }],
                receive_transactions := [], is_queue_block := true } } :=
  add_transaction_to_queue_block_idempotent { header := {} } _ { hash := 3 }
    (by rfl) (by rfl) (by rfl)

/-- C5 (counterexample): under the fork table `[(0, 1), (100, 2)]` at wall
clock 150, the parent with timestamp 50 resolves (by its own timestamp) to
ruleset 1 and the parent with timestamp 150 to ruleset 2 — they fall under
different fork-table entries — yet `create_header_from_parent` delegates BOTH
constructions to ruleset 2, because the source resolves the VM class with no
timestamp argument (wall clock), not by the parent's timestamp. -/
theorem create_header_from_parent_counterexample :
    (chain_create_header_from_parent [(0, 1), (100, 2)] 150
        { timestamp := 50 }).toOption.map Prod.fst = some 2
    ∧ (chain_create_header_from_parent [(0, 1), (100, 2)] 150
        { timestamp := 150 }).toOption.map Prod.fst = some 2
    ∧ get_vm_class_for_block_timestamp [(0, 1), (100, 2)]
        (({ timestamp := 50 } : BlockHeader).timestamp) = Except.ok 1
    ∧ get_vm_class_for_block_timestamp [(0, 1), (100, 2)]
        (({ timestamp := 150 } : BlockHeader).timestamp) = Except.ok 2
    ∧ (1 : Nat) ≠ 2 := by
  refine ⟨rfl, rfl, rfl, rfl, by decide⟩

/-- C5 (amended): `Chain.create_header_from_parent` resolves the ruleset by
the caller's wall clock (the no-argument fork-table lookup), not by the
parent header's timestamp: the ruleset delegated to is exactly the one the
fork table yields for `now`, and is therefore the same for any two parent
headers, whatever their timestamps. -/
theorem create_header_from_parent_resolves_by_wall_clock
    (vm_configuration : List (Nat × Nat)) (now : Nat)
    (parent_header other_parent : BlockHeader) :
    (chain_create_header_from_parent vm_configuration now
        parent_header).toOption.map Prod.fst
      = (get_vm_class_for_block_timestamp vm_configuration now).toOption
    ∧ (chain_create_header_from_parent vm_configuration now
        parent_header).toOption.map Prod.fst
      = (chain_create_header_from_parent vm_configuration now
          other_parent).toOption.map Prod.fst := by
  constructor
  · rw [chain_create_header_from_parent]
    cases get_vm_class_for_block_timestamp vm_configuration now with
    | error e => rfl
    | ok vm_class => rfl
  · rw [chain_create_header_from_parent, chain_create_header_from_parent]
    cases get_vm_class_for_block_timestamp vm_configuration now with
    | error e => rfl
    | ok vm_class => rfl

/-- A successful resolution of a pending-key list yields one transaction per
key, in matching order: the `i`-th transaction is the canonical transaction
of the `i`-th key. -/
theorem resolve_receivable_keys_spec (canonical : Nat → Option Transaction)
    (keys : List TransactionKey) (txs : List Transaction)
    (h : resolve_receivable_keys canonical keys = Except.ok txs) :
    txs.length = keys.length
    ∧ ∀ i (h1 : i < txs.length) (h2 : i < keys.length),
        get_canonical_transaction canonical
            (keys.get ⟨i, h2⟩).transaction_hash
          = Except.ok (txs.get ⟨i, h1⟩) := by
  induction keys generalizing txs with
  | nil =>
    rw [resolve_receivable_keys] at h
    cases h
    exact ⟨rfl, by intro i h1 h2; cases h1⟩
  | cons k rest ih =>
    rw [resolve_receivable_keys] at h
    cases hk : get_canonical_transaction canonical k.transaction_hash with
    | error e => rw [hk] at h; cases h
    | ok tx =>
      rw [hk] at h
      cases hrest : resolve_receivable_keys canonical rest with
      | error e => rw [hrest] at h; cases h
      | ok txs' =>
        rw [hrest] at h
        cases h
        obtain ⟨hlen, hidx⟩ := ih txs' hrest
        refine ⟨by simp [hlen], ?_⟩
        intro i h1 h2
        cases i with
        | zero => simpa using hk
        | succ j =>
          simp only [List.get_cons_succ]
          exact hidx j (by simpa using h1) (by simpa using h2)

/-- C8 (counterexample): for an address with no pending receivable entries,
`get_receivable_transactions` returns the Python sentinel pair
`(False, False)` — not a pair of empty collections, which is a different
value (the caller distinguishes them with `transactions == False`). -/
theorem get_receivable_transactions_counterexample :
    get_receivable_transactions (fun _ => []) (fun _ => none) 5
      = Except.ok (PyListOrFalse.falseVal, PyListOrFalse.falseVal)
    ∧ ((PyListOrFalse.falseVal, PyListOrFalse.falseVal) :
          PyListOrFalse Transaction × PyListOrFalse TransactionKey)
      ≠ (PyListOrFalse.listVal [], PyListOrFalse.listVal []) := by
  exact ⟨rfl, by decide⟩

/-- C8 (amended): for an address with no pending entries,
`get_receivable_transactions` returns the sentinel pair `(False, False)`
without raising an error; when entries are pending and each resolves, it
returns the resolved send transactions and the pending keys as a pair of
lists in matching order (the `i`-th transaction is the canonical transaction
of the `i`-th key). -/
theorem get_receivable_transactions_spec
    (receivable : Nat → List TransactionKey)
    (canonical : Nat → Option Transaction) (address : Nat) :
    (receivable address = [] →
      get_receivable_transactions receivable canonical address
        = Except.ok (PyListOrFalse.falseVal, PyListOrFalse.falseVal))
    ∧ ∀ txs, receivable address ≠ [] →
        resolve_receivable_keys canonical (receivable address)
          = Except.ok txs →
        get_receivable_transactions receivable canonical address
            = Except.ok (PyListOrFalse.listVal txs,
                PyListOrFalse.listVal (receivable address))
          ∧ txs.length = (receivable address).length
          ∧ ∀ i (h1 : i < txs.length) (h2 : i < (receivable address).length),
              get_canonical_transaction canonical
                  ((receivable address).get ⟨i, h2⟩).transaction_hash
                = Except.ok (txs.get ⟨i, h1⟩) := by
  constructor
  · intro hempty
    rw [get_receivable_transactions]
    simp [hempty]
  · intro txs hne hres
    obtain ⟨hlen, hidx⟩ := resolve_receivable_keys_spec canonical _ txs hres
    refine ⟨?_, hlen, hidx⟩
    rw [get_receivable_transactions]
    have : (receivable address).length ≠ 0 := by
      simpa [List.length_eq_zero] using hne
    simp only [this, if_false, hres]

/-- Witness for the amended C8: one pending key (transaction hash 30, sender
block hash 40) for address 5 resolves to the stored transaction of hash 30,
and an address with no pending entries gets the sentinel pair. -/
theorem get_receivable_transactions_spec_witness :
    get_receivable_transactions
        (fun a => if a = 5 then [{ transaction_hash := 30, sender_block_hash := 40 }] else [])
        (fun h => if h = 30 then some { value := 9, hash := 30 } else none) 5
      = Except.ok (PyListOrFalse.listVal [{ value := 9, hash := 30 }],
          PyListOrFalse.listVal [{ transaction_hash := 30, sender_block_hash := 40 }])
    ∧ get_receivable_transactions
        (fun a => if a = 5 then [{ transaction_hash := 30, sender_block_hash := 40 }] else [])
        (fun h => if h = 30 then some { value := 9, hash := 30 } else none) 7
      = Except.ok (PyListOrFalse.falseVal, PyListOrFalse.falseVal) := by
  constructor
  · exact ((get_receivable_transactions_spec
      (fun a => if a = 5 then [{ transaction_hash := 30, sender_block_hash := 40 }] else [])
      (fun h => if h = 30 then some { value := 9, hash := 30 } else none) 5).2
      [{ value := 9, hash := 30 }] (by simp) (by rfl)).1
  · exact (get_receivable_transactions_spec
      (fun a => if a = 5 then [{ transaction_hash := 30, sender_block_hash := 40 }] else [])
      (fun h => if h = 30 then some { value := 9, hash := 30 } else none) 7).1 (by simp)


/-- A check sequence succeeds exactly when every check succeeds. -/
theorem except_sequence_eq_ok_iff (l : List (Except Err Unit)) :
    except_sequence l = Except.ok () ↔ ∀ x ∈ l, x = Except.ok () := by
  induction l with
  | nil => simp [except_sequence]
  | cons x rest ih =>
    cases x with
    | error e => simp [except_sequence]
    | ok a => simp [except_sequence, ih]

/-- If every check of a prefix either succeeds or raises `ValidationError`,
and some check of the prefix raises, the whole sequence raises
`ValidationError` (the later checks are never reached). -/
theorem except_sequence_append_err (l1 l2 : List (Except Err Unit))
    (hall : ∀ x ∈ l1, x = Except.ok () ∨ x = Except.error Err.ValidationError)
    (hex : ∃ x ∈ l1, x = Except.error Err.ValidationError) :
    except_sequence (l1 ++ l2) = Except.error Err.ValidationError := by
  induction l1 with
  | nil => simp at hex
  | cons x rest ih =>
    rcases hall x (List.mem_cons_self _ _) with hx | hx
    · subst hx
      rw [List.cons_append, except_sequence]
      apply ih
      · intro y hy
        exact hall y (List.mem_cons_of_mem _ hy)
      · obtain ⟨y, hy, hey⟩ := hex
        rcases List.mem_cons.mp hy with rfl | hy
        · cases hey
        · exact ⟨y, hy, hey⟩
    · subst hx
      rfl

/-- `validate_uint256` either succeeds or raises `ValidationError`. -/
theorem validate_uint256_ok_or (x : Nat) :
    validate_uint256 x = Except.ok ()
      ∨ validate_uint256 x = Except.error Err.ValidationError := by
  rw [validate_uint256]
  split
  · exact Or.inl rfl
  · exact Or.inr rfl

/-- `validate_lte` of a present bound either succeeds or raises
`ValidationError`. -/
theorem validate_lte_some_ok_or (x m : Nat) :
    validate_lte x (some m) = Except.ok ()
      ∨ validate_lte x (some m) = Except.error Err.ValidationError := by
  rw [validate_lte]
  split
  · exact Or.inr rfl
  · exact Or.inl rfl

/-- `validate_gte` of a present bound either succeeds or raises
`ValidationError`. -/
theorem validate_gte_some_ok_or (x m : Nat) :
    validate_gte x (some m) = Except.ok ()
      ∨ validate_gte x (some m) = Except.error Err.ValidationError := by
  rw [validate_gte]
  split
  · exact Or.inr rfl
  · exact Or.inl rfl

/-- `validate_gte` of a present bound succeeds exactly when the bound holds. -/
theorem validate_gte_some_ok_iff (x m : Nat) :
    validate_gte x (some m) = Except.ok () ↔ m ≤ x := by
  rw [validate_gte]
  split
  · simp
    omega
  · simp
    omega

/-- `validate_lte` of a present bound succeeds exactly when the bound holds. -/
theorem validate_lte_some_ok_iff (x m : Nat) :
    validate_lte x (some m) = Except.ok () ↔ x ≤ m := by
  rw [validate_lte]
  split
  · simp
    omega
  · simp
    omega

/-- `validate_uint256` succeeds exactly on values below `2 ^ 256`. -/
theorem validate_uint256_ok_iff (x : Nat) :
    validate_uint256 x = Except.ok () ↔ x < UINT256_CEILING := by
  rw [validate_uint256]
  split
  · simp
    assumption
  · simp
    omega

/-- The `v_min` of a receive transaction without an EIP-155 `v` is `None`. -/
theorem v_min_eq_none (tx : ReceiveTransaction) (hv : tx.v < 35) :
    tx.v_min = none := by
  rw [ReceiveTransaction.v_min, is_eip_155_signed]
  simp
  omega

/-- The `v_min` of a receive transaction with an EIP-155 `v`. -/
theorem v_min_eq_some (tx : ReceiveTransaction) (hv : 35 ≤ tx.v) :
    tx.v_min = some (35 + 2 * extract_chain_id tx.v) := by
  rw [ReceiveTransaction.v_min, is_eip_155_signed]
  simp [hv]

/-- The `v_max` of a receive transaction with an EIP-155 `v`. -/
theorem v_max_eq_some (tx : ReceiveTransaction) (hv : 35 ≤ tx.v) :
    tx.v_max = some (36 + 2 * extract_chain_id tx.v) := by
  rw [ReceiveTransaction.v_max, is_eip_155_signed]
  simp [hv]

/-- C9 (counterexample): the receive transaction with `v = 27`, `r = 1` and
`s = SECPK1_N / 2 + 1` has `s` inside `[1, curve_order)` but outside the
lower half of the curve order, yet `validate()` raises `TypeError` (the
`int`-versus-`None` comparison in `validate_gte(v, v_min)` runs before the
lower-half check on `s`), not a `ValidationError`: the claim that any such
`s` is rejected with a validation error is false. -/
theorem receive_validate_counterexample :
    ReceiveTransaction.validate
        { sender_block_hash := 0, transaction := {}, v := 27, r := 1,
          s := SECPK1_N / 2 + 1 }
      = Except.error Err.TypeError
    ∧ 1 ≤ SECPK1_N / 2 + 1
    ∧ SECPK1_N / 2 + 1 < SECPK1_N
    ∧ SECPK1_N / 2 - 1 < SECPK1_N / 2 + 1
    ∧ Err.TypeError ≠ Err.ValidationError := by
  refine ⟨by decide, by decide, by decide, by decide, by decide⟩

/-- C9 (amended): `validate()` rejects with `ValidationError` any `s` outside
`[1, curve_order)` (whatever `v` is); when the transaction carries an EIP-155
`v` (`v ≥ 35`) it also rejects with `ValidationError` any `s` outside the
lower half of the curve order, while for `v < 35` the `v`-bound check raises
`TypeError` first, so validation never succeeds; and a receive transaction
passing `validate()` satisfies all three bounds — `s ∈ [1, curve_order)`,
`s` in the lower half, and `v` inside the two-value window
`[35 + 2·chainId, 36 + 2·chainId]` derived from its own chain id. -/
theorem receive_validate_bounds (tx : ReceiveTransaction) :
    ((tx.s = 0 ∨ SECPK1_N ≤ tx.s) →
      tx.validate = Except.error Err.ValidationError)
    ∧ (35 ≤ tx.v → SECPK1_N / 2 - 1 < tx.s →
        tx.validate = Except.error Err.ValidationError)
    ∧ (tx.v < 35 → tx.validate ≠ Except.ok ())
    ∧ (tx.validate = Except.ok () →
        1 ≤ tx.s ∧ tx.s < SECPK1_N ∧ tx.s ≤ SECPK1_N / 2 - 1
        ∧ 35 + 2 * extract_chain_id tx.v ≤ tx.v
        ∧ tx.v ≤ 36 + 2 * extract_chain_id tx.v) := by
  have hN : 1 ≤ SECPK1_N := by decide
  refine ⟨?_, ?_, ?_, ?_⟩
  · intro hs
    show except_sequence
      ([validate_uint256 tx.v, validate_uint256 tx.r, validate_uint256 tx.s,
        validate_lt_secpk1n tx.r, validate_gte tx.r (some 1),
        validate_lt_secpk1n tx.s, validate_gte tx.s (some 1)]
        ++ [validate_gte tx.v tx.v_min, validate_lte tx.v tx.v_max,
          base_receive_transaction_validate tx, validate_lt_secpk1n2 tx.s])
      = Except.error Err.ValidationError
    apply except_sequence_append_err
    · intro x hx
      simp only [List.mem_cons, List.not_mem_nil, or_false] at hx
      rcases hx with rfl | rfl | rfl | rfl | rfl | rfl | rfl
      · exact validate_uint256_ok_or tx.v
      · exact validate_uint256_ok_or tx.r
      · exact validate_uint256_ok_or tx.s
      · exact validate_lte_some_ok_or tx.r (SECPK1_N - 1)
      · exact validate_gte_some_ok_or tx.r 1
      · exact validate_lte_some_ok_or tx.s (SECPK1_N - 1)
      · exact validate_gte_some_ok_or tx.s 1
    · rcases hs with hs0 | hsN
      · refine ⟨validate_gte tx.s (some 1), by simp, ?_⟩
        rw [validate_gte]
        simp only [hs0]
        rfl
      · by_cases hsc : tx.s < UINT256_CEILING
        · refine ⟨validate_lt_secpk1n tx.s, by simp, ?_⟩
          rw [validate_lt_secpk1n, validate_lte]
          rw [if_pos (by omega : SECPK1_N - 1 < tx.s)]
        · refine ⟨validate_uint256 tx.s, by simp, ?_⟩
          rw [validate_uint256, if_neg hsc]
  · intro hv hs
    show except_sequence
      ([validate_uint256 tx.v, validate_uint256 tx.r, validate_uint256 tx.s,
        validate_lt_secpk1n tx.r, validate_gte tx.r (some 1),
        validate_lt_secpk1n tx.s, validate_gte tx.s (some 1),
        validate_gte tx.v tx.v_min, validate_lte tx.v tx.v_max,
        base_receive_transaction_validate tx, validate_lt_secpk1n2 tx.s]
        ++ []) = Except.error Err.ValidationError
    apply except_sequence_append_err
    · intro x hx
      simp only [List.mem_cons, List.not_mem_nil, or_false] at hx
      rcases hx with rfl | rfl | rfl | rfl | rfl | rfl | rfl | rfl | rfl | rfl | rfl
      · exact validate_uint256_ok_or tx.v
      · exact validate_uint256_ok_or tx.r
      · exact validate_uint256_ok_or tx.s
      · exact validate_lte_some_ok_or tx.r (SECPK1_N - 1)
      · exact validate_gte_some_ok_or tx.r 1
      · exact validate_lte_some_ok_or tx.s (SECPK1_N - 1)
      · exact validate_gte_some_ok_or tx.s 1
      · rw [v_min_eq_some tx hv]
        exact validate_gte_some_ok_or tx.v (35 + 2 * extract_chain_id tx.v)
      · rw [v_max_eq_some tx hv]
        exact validate_lte_some_ok_or tx.v (36 + 2 * extract_chain_id tx.v)
      · exact Or.inl rfl
      · exact validate_lte_some_ok_or tx.s (SECPK1_N / 2 - 1)
    · refine ⟨validate_lt_secpk1n2 tx.s, by simp, ?_⟩
      rw [validate_lt_secpk1n2, validate_lte]
      rw [if_pos hs]
  · intro hv hok
    have hall := (except_sequence_eq_ok_iff _).mp hok
    have hg := hall (validate_gte tx.v tx.v_min) (by simp)
    rw [v_min_eq_none tx hv] at hg
    rw [validate_gte] at hg
    cases hg
  · intro hok
    have hall := (except_sequence_eq_ok_iff _).mp hok
    have hs1 : (1 : Nat) ≤ tx.s :=
      (validate_gte_some_ok_iff tx.s 1).mp
        (hall (validate_gte tx.s (some 1)) (by simp))
    have hs2 : tx.s ≤ SECPK1_N - 1 :=
      (validate_lte_some_ok_iff tx.s (SECPK1_N - 1)).mp
        (hall (validate_lt_secpk1n tx.s) (by simp))
    have hs3 : tx.s ≤ SECPK1_N / 2 - 1 :=
      (validate_lte_some_ok_iff tx.s (SECPK1_N / 2 - 1)).mp
        (hall (validate_lt_secpk1n2 tx.s) (by simp))
    by_cases hv : 35 ≤ tx.v
    · have hgv : validate_gte tx.v tx.v_min = Except.ok () :=
        hall (validate_gte tx.v tx.v_min) (by simp)
      have hlv : validate_lte tx.v tx.v_max = Except.ok () :=
        hall (validate_lte tx.v tx.v_max) (by simp)
      rw [v_min_eq_some tx hv] at hgv
      rw [v_max_eq_some tx hv] at hlv
      have h4 := (validate_gte_some_ok_iff _ _).mp hgv
      have h5 := (validate_lte_some_ok_iff _ _).mp hlv
      exact ⟨hs1, by omega, hs3, h4, h5⟩
    · exfalso
      have hg := hall (validate_gte tx.v tx.v_min) (by simp)
      rw [v_min_eq_none tx (by omega)] at hg
      rw [validate_gte] at hg
      cases hg

/-- Witness for the amended C9: the receive transaction with `s = 0` (and an
EIP-155 `v` of 37) is rejected with `ValidationError`. -/
theorem receive_validate_bounds_witness :
    ReceiveTransaction.validate
        { sender_block_hash := 0, transaction := {}, v := 37, r := 1, s := 0 }
      = Except.error Err.ValidationError :=
  (receive_validate_bounds
    { sender_block_hash := 0, transaction := {}, v := 37, r := 1, s := 0 }).1
    (Or.inl rfl)

/-- C10: for every block whose runtime class is the queue-block class,
`import_block` behaves identically with `perform_validation = true` and
`perform_validation = false`: the `isinstance` check alone disables the
`ensure_imported_block_unchanged` and `validate_block` steps, for any
queue-block-class block, even when the caller explicitly requested
validation. -/
theorem import_block_queue_class_skips_validation
    (vm_configuration : List (Nat × Nat)) (now : Nat)
    (executor : Block → Except Err Block) (st : ChainState) (block : Block)
    (hq : block.is_queue_block = true) :
    import_block vm_configuration now executor st block true
      = import_block vm_configuration now executor st block false := by
  rw [import_block, import_block, hq]
  simp only [Bool.not_true, Bool.and_false]

/-- Witness for C10 at concrete inputs: a queue-block-class genesis block on
a fresh chain imports identically with and without requested validation. -/
theorem import_block_queue_class_skips_validation_witness :
    import_block [(0, 1)] 5 (fun b => Except.ok b)
        { header := { timestamp := 0 } }
        { header := { block_number := 0, gas_limit := 3000, hash := 42 },
          is_queue_block := true } true
      = import_block [(0, 1)] 5 (fun b => Except.ok b)
        { header := { timestamp := 0 } }
        { header := { block_number := 0, gas_limit := 3000, hash := 42 },
          is_queue_block := true } false :=
  import_block_queue_class_skips_validation [(0, 1)] 5 (fun b => Except.ok b)
    { header := { timestamp := 0 } }
    { header := { block_number := 0, gas_limit := 3000, hash := 42 },
      is_queue_block := true } rfl

/-- C1 (counterexample): a non-genesis block whose number (1) differs from
the chain's recorded next slot (2) but which also violates the minimum
inter-block time (its timestamp is 5 seconds after its stored parent's,
below the required 10) makes `import_block` fail with
`NotEnoughTimeBetweenBlocks`, not `ValidationError`: the time guard runs
before the number check, so a number mismatch does not always fail with
`ValidationError`.  (The state is still returned unchanged.) -/
theorem import_block_number_mismatch_counterexample :
    import_block [(0, 1)] 1000 (fun b => Except.ok b)
        { header := { block_number := 2, timestamp := 1000 },
          stored := [{ timestamp := 995, hash := 77 }] }
        { header :=
            { block_number := 1, parent_hash := 77, timestamp := 1000 } }
        true
      = (Except.error Err.NotEnoughTimeBetweenBlocks,
          { header := { block_number := 2, timestamp := 1000 },
            stored := [{ timestamp := 995, hash := 77 }] })
    ∧ ({ header :=
            { block_number := 1, parent_hash := 77, timestamp := 1000 } }
          : Block).number
        ≠ ({ header := { block_number := 2, timestamp := 1000 },
              stored := [{ timestamp := 995, hash := 77 }] }
            : ChainState).header.block_number
    ∧ Err.NotEnoughTimeBetweenBlocks ≠ Err.ValidationError := by
  refine ⟨by decide, by decide, by decide⟩

/-- C1 (amended): importing a block whose number differs from the chain's
recorded next-slot number always fails and leaves the chain state (tip
header, queue block, storage, canonical head) exactly as it was; the failure
is `ValidationError` provided the preliminary minimum-time guard passes
(for a genesis-numbered block it is skipped), and otherwise it is the
guard's own error. -/
theorem import_block_number_mismatch (vm_configuration : List (Nat × Nat))
    (now : Nat) (executor : Block → Except Err Block) (st : ChainState)
    (block : Block) (perform_validation : Bool)
    (hnum : block.number ≠ st.header.block_number) :
    (import_block vm_configuration now executor st block
        perform_validation).2 = st
    ∧ (∀ b, (import_block vm_configuration now executor st block
        perform_validation).1 ≠ Except.ok b)
    ∧ (import_block_time_check vm_configuration st block = Except.ok () →
        (import_block vm_configuration now executor st block
            perform_validation).1 = Except.error Err.ValidationError) := by
  rw [import_block]
  cases h : import_block_time_check vm_configuration st block with
  | error e =>
    refine ⟨rfl, ?_, ?_⟩
    · intro b
      simp
    · intro hok
      simp at hok
  | ok u =>
    rw [if_pos hnum]
    exact ⟨rfl, by intro b; simp, fun _ => rfl⟩

/-- Witness for the amended C1: a genesis-numbered block (number 0, so the
time guard is skipped) against a chain whose next slot is number 2 is
rejected with `ValidationError` and the state is unchanged. -/
theorem import_block_number_mismatch_witness :
    (import_block [(0, 1)] 5 (fun b => Except.ok b)
        { header := { block_number := 2, timestamp := 50 } }
        { header := { block_number := 0, hash := 4 } } true).2
      = { header := { block_number := 2, timestamp := 50 } }
    ∧ (import_block [(0, 1)] 5 (fun b => Except.ok b)
        { header := { block_number := 2, timestamp := 50 } }
        { header := { block_number := 0, hash := 4 } } true).1
      = Except.error Err.ValidationError :=
  ⟨(import_block_number_mismatch [(0, 1)] 5 (fun b => Except.ok b)
      { header := { block_number := 2, timestamp := 50 } }
      { header := { block_number := 0, hash := 4 } } true (by decide)).1,
   (import_block_number_mismatch [(0, 1)] 5 (fun b => Except.ok b)
      { header := { block_number := 2, timestamp := 50 } }
      { header := { block_number := 0, hash := 4 } } true (by decide)).2.2
      (by rfl)⟩

/-- The persistence tail of `import_block`, when it returns a block: the
returned block is the imported one, the canonical head checkpoint now holds
its header (so the persisted head hash is the imported block's hash), the
recomputed tip header is its child, and the queue block is cleared. -/
theorem import_block_persist_success (vm_configuration : List (Nat × Nat))
    (now : Nat) (st : ChainState) (imported b : Block) (st' : ChainState)
    (h : import_block_persist vm_configuration now st imported
      = (Except.ok b, st')) :
    b = imported
    ∧ st'.canonical_head = some imported.header
    ∧ Option.map BlockHeader.hash st'.canonical_head = some imported.hash
    ∧ st'.header.block_number = imported.number + 1
    ∧ st'.header.parent_hash = imported.hash
    ∧ st'.queue_block = none := by
  rw [import_block_persist] at h
  simp only [get_canonical_head] at h
  split at h
  · simp at h
  · rename_i result heq
    rw [chain_create_header_from_parent] at heq
    split at heq
    · cases heq
    · cases heq
      simp only [Prod.mk.injEq, Except.ok.injEq] at h
      obtain ⟨rfl, rfl⟩ := h
      exact ⟨rfl, rfl, rfl, rfl, rfl, rfl⟩

/-- C2: whenever `import_block` succeeds and returns the imported block, the
persisted canonical head checkpoint equals the imported block's header (so
the persisted head hash is the imported block's hash), the chain's new tip
header is the imported block's child (number one greater, parent hash the
imported block's hash), and the queue block has been cleared. -/
theorem import_block_success_post (vm_configuration : List (Nat × Nat))
    (now : Nat) (executor : Block → Except Err Block) (st : ChainState)
    (block : Block) (perform_validation : Bool) (imported_block : Block)
    (st' : ChainState)
    (h : import_block vm_configuration now executor st block
        perform_validation = (Except.ok imported_block, st')) :
    st'.canonical_head = some imported_block.header
    ∧ Option.map BlockHeader.hash st'.canonical_head
        = some imported_block.hash
    ∧ st'.header.block_number = imported_block.number + 1
    ∧ st'.header.parent_hash = imported_block.hash
    ∧ st'.queue_block = none := by
  rw [import_block] at h
  repeat' split at h
  all_goals
    first
      | simp at h
      | (obtain ⟨rfl, hrest⟩ := import_block_persist_success _ _ _ _ _ _ h
         exact hrest)

/-- Witness for C2: importing the queue-block-class genesis block of hash 42
on a fresh chain (fork table `[(0, 1)]`, wall clock 5) succeeds; afterwards
the canonical head holds that block's header (hash 42), the new tip header is
its child (number 1, parent hash 42), and the queue block is cleared. -/
theorem import_block_success_post_witness :
    (ChainState.canonical_head { header := { block_number := 1, parent_hash := 42, timestamp := 5, gas_limit := 3000 }, queue_block := none, stored := [{ block_number := 0, gas_limit := 3000, hash := 42 }], canonical_head := some { block_number := 0, gas_limit := 3000, hash := 42 } })
      = some (Block.header { header := { block_number := 0, gas_limit := 3000, hash := 42 }, is_queue_block := true })
    ∧ Option.map BlockHeader.hash (ChainState.canonical_head { header := { block_number := 1, parent_hash := 42, timestamp := 5, gas_limit := 3000 }, queue_block := none, stored := [{ block_number := 0, gas_limit := 3000, hash := 42 }], canonical_head := some { block_number := 0, gas_limit := 3000, hash := 42 } })
      = some (Block.hash { header := { block_number := 0, gas_limit := 3000, hash := 42 }, is_queue_block := true })
    ∧ (ChainState.header { header := { block_number := 1, parent_hash := 42, timestamp := 5, gas_limit := 3000 }, queue_block := none, stored := [{ block_number := 0, gas_limit := 3000, hash := 42 }], canonical_head := some { block_number := 0, gas_limit := 3000, hash := 42 } }).block_number
      = Block.number { header := { block_number := 0, gas_limit := 3000, hash := 42 }, is_queue_block := true } + 1
    ∧ (ChainState.header { header := { block_number := 1, parent_hash := 42, timestamp := 5, gas_limit := 3000 }, queue_block := none, stored := [{ block_number := 0, gas_limit := 3000, hash := 42 }], canonical_head := some { block_number := 0, gas_limit := 3000, hash := 42 } }).parent_hash
      = Block.hash { header := { block_number := 0, gas_limit := 3000, hash := 42 }, is_queue_block := true }
    ∧ ChainState.queue_block { header := { block_number := 1, parent_hash := 42, timestamp := 5, gas_limit := 3000 }, queue_block := none, stored := [{ block_number := 0, gas_limit := 3000, hash := 42 }], canonical_head := some { block_number := 0, gas_limit := 3000, hash := 42 } } = none :=
  import_block_success_post [(0, 1)] 5 (fun b => Except.ok b)
    { header := { timestamp := 0 } }
    { header := { block_number := 0, gas_limit := 3000, hash := 42 }, is_queue_block := true }
    true
    { header := { block_number := 0, gas_limit := 3000, hash := 42 }, is_queue_block := true }
    { header := { block_number := 1, parent_hash := 42, timestamp := 5, gas_limit := 3000 }, queue_block := none, stored := [{ block_number := 0, gas_limit := 3000, hash := 42 }], canonical_head := some { block_number := 0, gas_limit := 3000, hash := 42 } }
    (by decide)
